import Mathlib

/-!
Shallow embedding of the packet capture engine in
`src/capture/packet_engine.py` (class `PacketCaptureEngine`), together with
theorems settling the specification claims about it.

Modelling conventions:
* Python `datetime` values are modelled as `Int` timestamps in seconds;
  `(a - b).total_seconds()` becomes integer subtraction.  Wherever the source
  calls `datetime.utcnow()` the embedding takes the current time as an
  explicit parameter.
* Python ints are unbounded, so `Nat`/`Int` model them exactly.
* Python `str` comparison is lexicographic on code points; it is embedded
  as the executable `pyStrLt` below, which agrees with that semantics.
* The flow identifier in the source is `md5(flow_key).hexdigest()` for a
  normalized `flow_key` string.  The md5 hex digest is one fixed function of
  that string, so every property of flow identifiers used by the claims
  (equality of the two directions of a conversation, consistent keying of
  the flow dictionary) is decided by the pre-image `flow_key` string; the
  embedding therefore uses the normalized string itself as the identifier.
* The Python `dict` `self.active_flows` is modelled as an insertion-ordered
  association list which invariantly has no duplicate keys.
* The database sink is modelled as a list that grows on each successful
  store; `get_db_session` failures are caught by the source and only skip
  the store, which no claim depends on.
-/

deriving instance DecidableEq for Except

namespace PacketEngine

/-- Python comparison of two characters by unicode code point. -/
def pyCharLt (a b : Char) : Bool := decide (a.toNat < b.toNat)

/-- Python lexicographic comparison of two strings, on their code-point
sequences: the first differing position decides; a strict prefix is
smaller. -/
def pyCharListLt : List Char → List Char → Bool
  | [], [] => false
  | [], _ :: _ => true
  | _ :: _, [] => false
  | a :: as, b :: bs =>
    if pyCharLt a b then true
    else if pyCharLt b a then false
    else pyCharListLt as bs

/-- Python `a < b` on `str` operands. -/
def pyStrLt (a b : String) : Bool := pyCharListLt a.data b.data

/-- Python exception kinds that the embedded code can raise. -/
inductive PyErr where
  | typeError
  deriving DecidableEq, Repr

/-- Python comparison `a < b` on optional ints: comparing `None` with
anything raises `TypeError` (Python 3 semantics), as in
`src_port < dst_port` in `_create_flow_id` when ports are `None`. -/
def pyLtOpt : Option Nat → Option Nat → Except PyErr Bool
  | some a, some b => .ok (decide (a < b))
  | _, _ => .error .typeError

/-- The dictionary produced by `_extract_packet_info`: one decoded packet. -/
structure PacketInfo where
  timestamp : Int
  packetSize : Nat
  interfaceName : String
  srcMac : Option String
  dstMac : Option String
  srcIp : String
  dstIp : String
  protocol : Nat
  ttl : Nat
  payloadSize : Nat
  srcPort : Option Nat
  dstPort : Option Nat
  protocolName : String
  flags : String
  deriving DecidableEq, Repr

/-- Formatting of a port inside the f-string of `_create_flow_id`:
Python renders `None` as `"None"` and an int in decimal. -/
def portStr : Option Nat → String
  | none => "None"
  | some n => toString n

/-- The f-string of `_create_flow_id`, joining the chosen endpoint order
and the protocol name with `:` and `-` separators. -/
def flow_key (ip1 : String) (p1 : Option Nat) (ip2 : String) (p2 : Option Nat)
    (protocol : String) : String :=
  ip1 ++ ":" ++ portStr p1 ++ "-" ++ ip2 ++ ":" ++ portStr p2 ++ "-" ++ protocol

/-- Embedding of `_create_flow_id` (packet_engine.py lines 323-337).  The
source reads the 5-tuple with `dict.get` defaults that never fire (every
`_extract_packet_info` result contains all five keys), normalizes direction
with `if src_ip < dst_ip or (src_ip == dst_ip and src_port < dst_port)`
under Python short-circuit evaluation, and returns the md5 hex digest of the
normalized string (see the md5 note in the file header).  When the addresses
are equal, the port comparison is evaluated and raises `TypeError` on `None`
ports. -/
def create_flow_id (info : PacketInfo) : Except PyErr String :=
  if pyStrLt info.srcIp info.dstIp then
    .ok (flow_key info.srcIp info.srcPort info.dstIp info.dstPort info.protocolName)
  else if info.srcIp = info.dstIp then
    match pyLtOpt info.srcPort info.dstPort with
    | .error e => .error e
    | .ok true =>
      .ok (flow_key info.srcIp info.srcPort info.dstIp info.dstPort info.protocolName)
    | .ok false =>
      .ok (flow_key info.dstIp info.dstPort info.srcIp info.srcPort info.protocolName)
  else
    .ok (flow_key info.dstIp info.dstPort info.srcIp info.srcPort info.protocolName)

/-- Swapping the two endpoints of a decoded packet: the same conversation
seen from the opposite direction (same protocol, addresses and ports
exchanged). -/
def swap_directions (info : PacketInfo) : PacketInfo :=
  { info with
    srcIp := info.dstIp, dstIp := info.srcIp,
    srcPort := info.dstPort, dstPort := info.srcPort }

/-- One entry of `self.active_flows`: the mutable per-flow dictionary built
in `_update_flow_session` (packet_engine.py lines 303-315). -/
structure FlowState where
  session_id : String
  src_ip : String
  dst_ip : String
  src_port : Option Nat
  dst_port : Option Nat
  protocol : String
  start_time : Int
  last_seen : Int
  packet_count : Nat
  bytes_transferred : Nat
  status : String
  deriving DecidableEq, Repr

/-- The `FlowSession` database row written by `_cleanup_old_flows`
(packet_engine.py lines 352-365). -/
structure FlowSessionRecord where
  session_id : String
  src_ip : String
  dst_ip : String
  src_port : Option Nat
  dst_port : Option Nat
  protocol : String
  start_time : Int
  end_time : Int
  duration : Int
  packet_count : Nat
  bytes_transferred : Nat
  status : String
  deriving DecidableEq, Repr

/-- `self.active_flows`, an insertion-ordered Python dict. -/
abbrev FlowTable := List (String × FlowState)

/-- `self.active_flows[k]` access, and the `k in self.active_flows` test
via `Option.isSome`. -/
def lookupFlow (tbl : FlowTable) (k : String) : Option FlowState :=
  match tbl.find? (fun p => p.1 == k) with
  | some p => some p.2
  | none => none

/-- The eviction test of `_cleanup_old_flows`:
`(current_time - flow['last_seen']).total_seconds() > self.flow_timeout`. -/
def flow_expired (flow_timeout now : Int) (f : FlowState) : Bool :=
  decide (now - f.last_seen > flow_timeout)

/-- The `FlowSession(...)` constructor call in `_cleanup_old_flows`: note
that the source stores `duration=time_diff`, where `time_diff` is
`current_time - flow['last_seen']`, together with
`end_time=flow['last_seen']` and `status='timeout'`. -/
def make_timeout_record (now : Int) (f : FlowState) : FlowSessionRecord :=
  { session_id := f.session_id, src_ip := f.src_ip, dst_ip := f.dst_ip,
    src_port := f.src_port, dst_port := f.dst_port, protocol := f.protocol,
    start_time := f.start_time, end_time := f.last_seen,
    duration := now - f.last_seen, packet_count := f.packet_count,
    bytes_transferred := f.bytes_transferred, status := "timeout" }

/-- Embedding of `_cleanup_old_flows` (packet_engine.py lines 339-373):
returns the surviving table and the list of records handed to the sink, in
table iteration order. -/
def cleanup_old_flows (flow_timeout now : Int) (tbl : FlowTable) :
    FlowTable × List FlowSessionRecord :=
  (tbl.filter (fun p => ! flow_expired flow_timeout now p.2),
   (tbl.filter (fun p => flow_expired flow_timeout now p.2)).map
     (fun p => make_timeout_record now p.2))

/-- The new-flow dictionary literal of `_update_flow_session`. -/
def new_flow (fid : String) (info : PacketInfo) (now : Int) : FlowState :=
  { session_id := fid, src_ip := info.srcIp, dst_ip := info.dstIp,
    src_port := info.srcPort, dst_port := info.dstPort,
    protocol := info.protocolName, start_time := now, last_seen := now,
    packet_count := 1, bytes_transferred := info.packetSize,
    status := "active" }

/-- The in-place mutation of an existing flow in `_update_flow_session`. -/
def touch_flow (info : PacketInfo) (now : Int) (f : FlowState) : FlowState :=
  { f with
    last_seen := now, packet_count := f.packet_count + 1,
    bytes_transferred := f.bytes_transferred + info.packetSize }

/-- Embedding of `_update_flow_session` (packet_engine.py lines 287-321).
`now` is the `datetime.utcnow()` read in `_update_flow_session` and
`nowSweep` the one read inside `_cleanup_old_flows`.  The body is wrapped
in `try/except Exception`, so a `TypeError` from `_create_flow_id` is
swallowed (logged) and leaves the table untouched; the cleanup call is
then never reached. -/
def update_flow_session (flow_timeout : Int) (info : PacketInfo)
    (now nowSweep : Int) (tbl : FlowTable) :
    FlowTable × List FlowSessionRecord :=
  match create_flow_id info with
  | .error _ => (tbl, [])
  | .ok fid =>
    match lookupFlow tbl fid with
    | some _ =>
      cleanup_old_flows flow_timeout nowSweep
        (tbl.map (fun p => if p.1 == fid then (p.1, touch_flow info now p.2) else p))
    | none =>
      cleanup_old_flows flow_timeout nowSweep (tbl ++ [(fid, new_flow fid info now)])

/-- The concrete flow of the C2 counterexample: started at time 0, last
seen at time 100, swept at time 500 with the default 300-second timeout. -/
def c2flow : FlowState :=
  { session_id := "a:1-b:2-TCP", src_ip := "a", dst_ip := "b",
    src_port := some 1, dst_port := some 2, protocol := "TCP",
    start_time := 0, last_seen := 100, packet_count := 3,
    bytes_transferred := 300, status := "active" }

/-- A network-layer header as scapy exposes it to `_extract_packet_info`:
IPv4 `src/dst/proto/ttl` or IPv6 `src/dst/nh/hlim`, plus payload length. -/
structure IpLayer where
  src : String
  dst : String
  proto : Nat
  ttl : Nat
  payloadLen : Nat
  deriving DecidableEq, Repr

/-- The transport layer found in the frame, tested in the order
`TCP`/`UDP`/`ICMP`/else by `_extract_packet_info` (lines 227-256). -/
inductive TransportLayer where
  | tcp (sport dport : Nat) (flags : String)
  | udp (sport dport : Nat)
  | icmp
  | other
  deriving DecidableEq, Repr

/-- A raw sniffed frame as `_extract_packet_info` inspects it; `ether`
holds the optional (source mac, destination mac) pair. -/
structure RawPacket where
  len : Nat
  ether : Option (String × String)
  ipv4 : Option IpLayer
  ipv6 : Option IpLayer
  transport : TransportLayer
  sniffedOn : String
  deriving DecidableEq, Repr

/-- The `if IP in packet ... elif IPv6 in packet ... else return None`
branching of `_extract_packet_info`. -/
def ip_layer_of (pkt : RawPacket) : Option IpLayer :=
  match pkt.ipv4 with
  | some l => some l
  | none => pkt.ipv6

/-- The transport-layer `elif` chain of `_extract_packet_info`:
(src_port, dst_port, protocol_name, flags). -/
def transport_fields : TransportLayer → Option Nat × Option Nat × String × String
  | .tcp sport dport fl => (some sport, some dport, "TCP", fl)
  | .udp sport dport => (some sport, some dport, "UDP", "")
  | .icmp => (none, none, "ICMP", "")
  | .other => (none, none, "OTHER", "")

/-- Embedding of `_extract_packet_info` (packet_engine.py lines 189-262):
returns `none` for non-IP frames, otherwise the decoded dictionary. -/
def extract_packet_info (now : Int) (pkt : RawPacket) : Option PacketInfo :=
  match ip_layer_of pkt with
  | none => none
  | some l =>
    some { timestamp := now, packetSize := pkt.len,
           interfaceName := pkt.sniffedOn,
           srcMac := pkt.ether.map Prod.fst, dstMac := pkt.ether.map Prod.snd,
           srcIp := l.src, dstIp := l.dst, protocol := l.proto, ttl := l.ttl,
           payloadSize := l.payloadLen,
           srcPort := (transport_fields pkt.transport).1,
           dstPort := (transport_fields pkt.transport).2.1,
           protocolName := (transport_fields pkt.transport).2.2.1,
           flags := (transport_fields pkt.transport).2.2.2 }

/-- The external sink: packets stored by `_store_packet` and flow records
stored by `_cleanup_old_flows`, in store order. -/
structure SinkState where
  packets : List PacketInfo
  flows : List FlowSessionRecord
  deriving DecidableEq, Repr

/-- Embedding of `_analyze_packet` (packet_engine.py lines 173-187):
extract, store the packet, then update the flow table.  `tExtract`,
`tUpdate` and `tSweep` are the three `datetime.utcnow()` reads on that
path. -/
def analyze_packet (flow_timeout : Int) (tExtract tUpdate tSweep : Int)
    (pkt : RawPacket) (tbl : FlowTable) (sink : SinkState) :
    FlowTable × SinkState :=
  match extract_packet_info tExtract pkt with
  | none => (tbl, sink)
  | some info =>
    let sink1 : SinkState := { sink with packets := sink.packets ++ [info] }
    let res := update_flow_session flow_timeout info tUpdate tSweep tbl
    (res.1, { sink1 with flows := sink1.flows ++ res.2 })

/-- The statistics dictionary `self.stats` initialized in `__init__`
(packet_engine.py lines 34-40). -/
structure CaptureStats where
  packets_captured : Nat
  packets_processed : Nat
  packets_dropped : Nat
  bytes_captured : Nat
  start_time : Option Int
  deriving DecidableEq, Repr

/-- `self.stats` right after `__init__`. -/
def init_stats : CaptureStats :=
  { packets_captured := 0, packets_processed := 0, packets_dropped := 0,
    bytes_captured := 0, start_time := none }

/-- `Queue(maxsize=10000)` from `__init__`. -/
def queue_maxsize : Nat := 10000

/-- The producer/consumer view of the engine needed for the queue-bound
claim: running flag, queue depth, counters. -/
structure QueueState where
  is_running : Bool
  queue_len : Nat
  stats : CaptureStats
  deriving DecidableEq, Repr

/-- Embedding of `packet_handler` (packet_engine.py lines 129-143): returns
unchanged when not running; when the queue is not full, enqueues and bumps
captured and bytes; otherwise bumps dropped only. -/
def packet_handler (pktLen : Nat) (s : QueueState) : QueueState :=
  if s.is_running = false then s
  else if s.queue_len < queue_maxsize then
    { s with
      queue_len := s.queue_len + 1,
      stats := { s.stats with
        packets_captured := s.stats.packets_captured + 1,
        bytes_captured := s.stats.bytes_captured + pktLen } }
  else
    { s with
      stats := { s.stats with
        packets_dropped := s.stats.packets_dropped + 1 } }

/-- One iteration of the `_process_packets` loop body (lines 158-171): pops
and processes one packet when the queue is non-empty, else sleeps.  The
`_analyze_packet` call catches all its exceptions, so the iteration always
increments `packets_processed` after a pop. -/
def process_step (s : QueueState) : QueueState :=
  if 0 < s.queue_len then
    { s with
      queue_len := s.queue_len - 1,
      stats := { s.stats with
        packets_processed := s.stats.packets_processed + 1 } }
  else s

/-- Interleaved producer/consumer/lifecycle events acting on the queue and
counters; a quiescent snapshot is the state after any finite event
sequence. -/
inductive QEvent where
  | arrive (pktLen : Nat)
  | consume
  | setRunning (b : Bool)
  deriving DecidableEq, Repr

/-- One event's effect on the queue state. -/
def qstep : QEvent → QueueState → QueueState
  | .arrive n, s => packet_handler n s
  | .consume, s => process_step s
  | .setRunning b, s => { s with is_running := b }

/-- Running a finite interleaving of queue events. -/
def qrun (evs : List QEvent) (s : QueueState) : QueueState :=
  evs.foldl (fun t e => qstep e t) s

/-- The engine right after `__init__`. -/
def init_queue_state : QueueState :=
  { is_running := false, queue_len := 0, stats := init_stats }

/-- The engine at the start of the Scenario D burst: started (running flag
set, start time recorded), empty queue, zero counters. -/
def scenario_d_start : QueueState :=
  { is_running := true, queue_len := 0,
    stats := { init_stats with start_time := some 0 } }

/-- The lifecycle-relevant state of a `PacketCaptureEngine` object:
`capture_thread`/`processor_thread` record whether live worker threads have
been spawned (`None` in `__init__`), `capture_iface` the interface the
capture thread was started on. -/
structure Engine where
  is_running : Bool
  capture_thread : Bool
  processor_thread : Bool
  queue_len : Nat
  stats : CaptureStats
  active_flows : FlowTable
  capture_iface : Option String
  deriving DecidableEq, Repr

/-- A `PacketCaptureEngine` right after `__init__`. -/
def init_engine : Engine :=
  { is_running := false, capture_thread := false, processor_thread := false,
    queue_len := 0, stats := init_stats, active_flows := [],
    capture_iface := none }

/-- The loopback test of `auto_select_interface`:
`interface in ['lo', 'localhost']`. -/
def is_loopback (i : String) : Bool := i == "lo" || i == "localhost"

/-- First pass of `auto_select_interface` (lines 60-70): the first
non-loopback interface whose psutil stats exist and report up.  `up i`
models `psutil.net_if_stats().get(i)` as `none` when absent; a raising
lookup is caught by the source's `except Exception: continue`, which the
`none` case also models. -/
def first_up_interface (up : String → Option Bool) : List String → Option String
  | [] => none
  | i :: rest =>
    if is_loopback i then first_up_interface up rest
    else
      match up i with
      | some true => some i
      | _ => first_up_interface up rest

/-- Second pass (lines 73-75): the first non-loopback interface. -/
def first_non_loopback : List String → Option String
  | [] => none
  | i :: rest => if is_loopback i then first_non_loopback rest else some i

/-- Embedding of `auto_select_interface` (packet_engine.py lines 55-77),
with the interface list and the psutil up-state as parameters.  The final
fallback is `interfaces[0] if interfaces else 'eth0'`. -/
def auto_select_interface (ifaces : List String)
    (up : String → Option Bool) : String :=
  match first_up_interface up ifaces with
  | some i => i
  | none =>
    match first_non_loopback ifaces with
    | some i => i
    | none =>
      match ifaces with
      | [] => "eth0"
      | i :: _ => i

/-- Vocabulary for how `start_capture` can return, rich enough to state
the typed errors the specification expects; the source only ever returns
normally (`None`) and raises on no branch. -/
inductive StartOutcome where
  | normalReturn
  | interfaceError
  | alreadyRunningError
  | noInterfacesError
  deriving DecidableEq, Repr

/-- Embedding of `start_capture` (packet_engine.py lines 79-107).  When
already running it logs a warning and returns.  Otherwise it resolves
`None`/`"auto"` through `auto_select_interface`, sets the running flag and
start time, and spawns the processor and capture threads.  No branch
raises and no branch validates the interface. -/
def start_capture (ifaces : List String) (up : String → Option Bool)
    (now : Int) (iface : Option String) (e : Engine) :
    Engine × StartOutcome :=
  if e.is_running then (e, .normalReturn)
  else
    ({ e with
       is_running := true,
       stats := { e.stats with start_time := some now },
       processor_thread := true,
       capture_thread := true,
       capture_iface := some (match iface with
         | none => auto_select_interface ifaces up
         | some s =>
           if s == "auto" then auto_select_interface ifaces up else s) },
     .normalReturn)

/-- The effect of the capture worker `_capture_packets` (lines 126-156)
when opening the capture source fails: `sniff` raises, the `except` branch
logs the error and sets `self.is_running = False`.  `can_open` tells
whether the capture source can be opened on the given interface. -/
def capture_thread_on_error (can_open : String → Bool) (iface : String)
    (e : Engine) : Engine :=
  if can_open iface then e else { e with is_running := false }

/-- Vocabulary for how `stop_capture` can return; the source always
returns normally. -/
inductive StopOutcome where
  | normalReturn
  | leakedWorkerFault
  deriving DecidableEq, Repr

/-- Embedding of `stop_capture` (packet_engine.py lines 109-124).  The two
Bool parameters tell whether each worker exits within the 5-second `join`
grace period; the source ignores the join results (`join(timeout=5)`
returns `None` either way), logs "stopped", and returns. -/
def stop_capture (_capture_exits _processor_exits : Bool) (e : Engine) :
    Engine × StopOutcome :=
  if e.is_running = false then (e, .normalReturn)
  else ({ e with is_running := false }, .normalReturn)

/-- The dictionary returned by `get_statistics`; `runtime_seconds` and
`packets_per_second` are `none` when the corresponding keys are absent
from the returned dict. -/
structure StatisticsSnapshot where
  packets_captured : Nat
  packets_processed : Nat
  packets_dropped : Nat
  bytes_captured : Nat
  start_time : Option Int
  active_flows : Nat
  queue_size : Nat
  runtime_seconds : Option ℚ
  packets_per_second : Option ℚ
  deriving DecidableEq, Repr

/-- Embedding of `get_statistics` (packet_engine.py lines 375-386): copies
the counters, adds `active_flows` and `queue_size`, and only when
`start_time` is set (Python truthiness of a datetime object) adds
`runtime_seconds` and `packets_per_second`.  Float division is modelled as
exact rational division. -/
def get_statistics (now : Int) (e : Engine) : StatisticsSnapshot :=
  match e.stats.start_time with
  | none =>
    { packets_captured := e.stats.packets_captured,
      packets_processed := e.stats.packets_processed,
      packets_dropped := e.stats.packets_dropped,
      bytes_captured := e.stats.bytes_captured,
      start_time := none,
      active_flows := e.active_flows.length,
      queue_size := e.queue_len,
      runtime_seconds := none, packets_per_second := none }
  | some t =>
    { packets_captured := e.stats.packets_captured,
      packets_processed := e.stats.packets_processed,
      packets_dropped := e.stats.packets_dropped,
      bytes_captured := e.stats.bytes_captured,
      start_time := some t,
      active_flows := e.active_flows.length,
      queue_size := e.queue_len,
      runtime_seconds := some ((now - t : Int) : ℚ),
      packets_per_second := some
        (if ((now - t : Int) : ℚ) > 0
         then (e.stats.packets_captured : ℚ) / ((now - t : Int) : ℚ)
         else 0) }

/-- A concrete engine in the running state with nontrivial statistics. -/
def running_engine : Engine :=
  { init_engine with
    is_running := true, capture_thread := true, processor_thread := true,
    stats := { init_stats with start_time := some 5, packets_captured := 42 } }

/-- One `Ingest` call observed by the Flow Tracker: the decoded packet and
the two clock reads (`_update_flow_session` and `_cleanup_old_flows`) made
while processing it. -/
structure IngestEvent where
  info : PacketInfo
  now : Int
  nowSweep : Int
  deriving DecidableEq, Repr

/-- The effect of one `Ingest` call on the flow table. -/
def fstep (flow_timeout : Int) (ev : IngestEvent) (tbl : FlowTable) :
    FlowTable × List FlowSessionRecord :=
  update_flow_session flow_timeout ev.info ev.now ev.nowSweep tbl

/-- Running a sequence of `Ingest` calls: final table and all records
emitted to the sink, in order. -/
def frun (flow_timeout : Int) :
    List IngestEvent → FlowTable → FlowTable × List FlowSessionRecord
  | [], tbl => (tbl, [])
  | ev :: evs, tbl =>
    ((frun flow_timeout evs (fstep flow_timeout ev tbl).1).1,
     (fstep flow_timeout ev tbl).2
       ++ (frun flow_timeout evs (fstep flow_timeout ev tbl).1).2)

/-- The flow key an `Ingest` call contributes to: `none` when
`_create_flow_id` raises. -/
def ok_key (info : PacketInfo) : Option String :=
  match create_flow_id info with
  | .ok k => some k
  | .error _ => none

/-- Number of `Ingest` calls in a trace that successfully key to `k`. -/
def ingest_count (k : String) (evs : List IngestEvent) : Nat :=
  evs.countP (fun ev => ok_key ev.info == some k)

/-- Total packet count held in the table under key `k`. -/
def active_packet_sum (k : String) (tbl : FlowTable) : Nat :=
  ((tbl.filter (fun p => p.1 == k)).map (fun p => p.2.packet_count)).sum

/-- Total packet count on emitted records whose session id is `k`. -/
def emitted_packet_sum (k : String) (ems : List FlowSessionRecord) : Nat :=
  ((ems.filter (fun r => r.session_id == k)).map
    (fun r => r.packet_count)).sum

/-- The dictionary invariant of `self.active_flows`: keys are unique (a
Python dict) and every flow's `session_id` equals its key (flows are
always inserted as the dictionary literal whose `session_id` is the
key). -/
def flow_table_wf (tbl : FlowTable) : Prop :=
  (tbl.map Prod.fst).Nodup
    ∧ ∀ p ∈ tbl, (p : String × FlowState).2.session_id = p.1

/-- The first C7 witness packet: one TCP packet a:1 to b:2. -/
def c7info1 : PacketInfo :=
  { timestamp := 0, packetSize := 64, interfaceName := "e", srcMac := none,
    dstMac := none, srcIp := "a", dstIp := "b", protocol := 6, ttl := 64,
    payloadSize := 0, srcPort := some 1, dstPort := some 2,
    protocolName := "TCP", flags := "S" }

/-- The second C7 witness packet: an unrelated UDP packet c:3 to d:4,
arriving after the first flow has been idle past the timeout. -/
def c7info2 : PacketInfo :=
  { timestamp := 1000, packetSize := 80, interfaceName := "e",
    srcMac := none, dstMac := none, srcIp := "c", dstIp := "d",
    protocol := 17, ttl := 64, payloadSize := 0, srcPort := some 3,
    dstPort := some 4, protocolName := "UDP", flags := "" }

/-- The first C7 witness ingest, at time 0. -/
def c7ev1 : IngestEvent := { info := c7info1, now := 0, nowSweep := 0 }

/-- The second C7 witness ingest, at time 1000. -/
def c7ev2 : IngestEvent := { info := c7info2, now := 1000, nowSweep := 1000 }

/-- The record the second ingest's sweep emits for the first flow. -/
def c7rec : FlowSessionRecord :=
  make_timeout_record 1000 (new_flow "a:1-b:2-TCP" c7info1 0)

/-- The concrete C10 packet: ICMP with equal source and destination
addresses. -/
def c10pkt : RawPacket :=
  { len := 50, ether := none,
    ipv4 := some { src := "a", dst := "a", proto := 1, ttl := 64,
                   payloadLen := 10 },
    ipv6 := none, transport := .icmp, sniffedOn := "e" }

theorem pyCharLt_asymm {a b : Char} (h : pyCharLt a b = true) :
    pyCharLt b a = false := by
  simp only [pyCharLt, decide_eq_true_eq, decide_eq_false_iff_not] at h ⊢
  omega

theorem pyCharLt_both_false {a b : Char} (h1 : pyCharLt a b = false)
    (h2 : pyCharLt b a = false) : a = b := by
  simp only [pyCharLt, decide_eq_false_iff_not] at h1 h2
  have h : a.toNat = b.toNat := by omega
  exact Char.eq_of_val_eq (UInt32.ext h)

theorem pyCharListLt_asymm : ∀ {as bs : List Char},
    pyCharListLt as bs = true → pyCharListLt bs as = false
  | [], [], h => by simp [pyCharListLt] at h
  | [], _ :: _, _ => by simp [pyCharListLt]
  | _ :: _, [], h => by simp [pyCharListLt] at h
  | a :: as, b :: bs, h => by
    by_cases hab : pyCharLt a b = true
    · simp [pyCharListLt, pyCharLt_asymm hab, hab]
    · have hab' : pyCharLt a b = false := by
        cases hh : pyCharLt a b
        · rfl
        · exact absurd hh hab
      by_cases hba : pyCharLt b a = true
      · simp [pyCharListLt, hab', hba] at h
      · have hba' : pyCharLt b a = false := by
          cases hh : pyCharLt b a
          · rfl
          · exact absurd hh hba
        simp only [pyCharListLt, hab', hba', if_false] at h ⊢
        exact pyCharListLt_asymm h

theorem pyCharListLt_both_false : ∀ {as bs : List Char},
    pyCharListLt as bs = false → pyCharListLt bs as = false → as = bs
  | [], [], _, _ => rfl
  | [], _ :: _, h, _ => by simp [pyCharListLt] at h
  | _ :: _, [], _, h => by simp [pyCharListLt] at h
  | a :: as, b :: bs, h1, h2 => by
    by_cases hab : pyCharLt a b = true
    · simp [pyCharListLt, hab] at h1
    · have hab' : pyCharLt a b = false := by
        cases hh : pyCharLt a b
        · rfl
        · exact absurd hh hab
      by_cases hba : pyCharLt b a = true
      · simp [pyCharListLt, hba] at h2
      · have hba' : pyCharLt b a = false := by
          cases hh : pyCharLt b a
          · rfl
          · exact absurd hh hba
        simp only [pyCharListLt, hab', hba', if_false] at h1 h2
        have hc := pyCharLt_both_false hab' hba'
        have ht := pyCharListLt_both_false h1 h2
        rw [hc, ht]

theorem pyStrLt_asymm {a b : String} (h : pyStrLt a b = true) :
    pyStrLt b a = false :=
  pyCharListLt_asymm h

theorem pyStrLt_both_false {a b : String} (h1 : pyStrLt a b = false)
    (h2 : pyStrLt b a = false) : a = b :=
  String.ext (pyCharListLt_both_false h1 h2)

theorem pyStrLt_irrefl (a : String) : pyStrLt a a = false := by
  cases h : pyStrLt a a
  · rfl
  · exact absurd h (by simp [pyStrLt_asymm h])

/-- C3: the flow identifier computed by `_create_flow_id` is invariant
under exchanging the source and destination endpoints of the packet —
including the degenerate equal-address, `None`-port case, where both
directions raise the same `TypeError` (see C10), so the results still
agree. -/
theorem flow_id_direction_symmetric (info : PacketInfo) :
    create_flow_id (swap_directions info) = create_flow_id info := by
  rcases info with ⟨ts, sz, ifn, smac, dmac, A, B, proto, ttl, pls, pA, pB, P, fl⟩
  simp only [create_flow_id, swap_directions]
  by_cases hAB : pyStrLt A B = true
  · have hBA := pyStrLt_asymm hAB
    have hne : ¬ (B = A) := by
      intro h
      subst h
      rw [pyStrLt_irrefl] at hAB
      exact Bool.false_ne_true hAB
    simp [hAB, hBA, hne]
  · have hAB' : pyStrLt A B = false := by
      cases hh : pyStrLt A B
      · rfl
      · exact absurd hh hAB
    by_cases hBA : pyStrLt B A = true
    · have hne : ¬ (A = B) := by
        intro h
        subst h
        rw [pyStrLt_irrefl] at hBA
        exact Bool.false_ne_true hBA
      simp [hAB', hBA, hne]
    · have hBA' : pyStrLt B A = false := by
        cases hh : pyStrLt B A
        · rfl
        · exact absurd hh hBA
      have heq : A = B := pyStrLt_both_false hAB' hBA'
      subst heq
      simp only [hAB', hBA', Bool.false_eq_true, if_false, if_pos rfl]
      match pA, pB with
      | none, none => rfl
      | none, some b => rfl
      | some a, none => rfl
      | some a, some b =>
        simp only [pyLtOpt]
        rcases Nat.lt_trichotomy a b with h | h | h
        · have h1 : decide (a < b) = true := by simpa using h
          have h2 : decide (b < a) = false := by simp; omega
          simp [h1, h2]
        · subst h
          simp
        · have h1 : decide (a < b) = false := by simp; omega
          have h2 : decide (b < a) = true := by simpa using h
          simp [h1, h2]

/-- In an association list with no duplicate keys, a key determines its
value. -/
theorem nodup_keys_unique {α β : Type} {l : List (α × β)}
    (h : (l.map Prod.fst).Nodup) {k : α} {a b : β}
    (ha : (k, a) ∈ l) (hb : (k, b) ∈ l) : a = b := by
  induction l with
  | nil => cases ha
  | cons p rest ih =>
    simp only [List.map_cons, List.nodup_cons] at h
    rcases List.mem_cons.mp ha with ha1 | ha1
    · rcases List.mem_cons.mp hb with hb1 | hb1
      · have hab : (k, a) = (k, b) := by rw [ha1, hb1]
        exact congrArg Prod.snd hab
      · exfalso
        apply h.1
        rw [← ha1]
        exact List.mem_map.mpr ⟨(k, b), hb1, rfl⟩
    · rcases List.mem_cons.mp hb with hb1 | hb1
      · exfalso
        apply h.1
        rw [← hb1]
        exact List.mem_map.mpr ⟨(k, a), ha1, rfl⟩
      · exact ih h.2 ha1 hb1

/-- A flow looked up by key is an entry of the table. -/
theorem mem_of_lookupFlow {tbl : FlowTable} {k : String} {f : FlowState}
    (h : lookupFlow tbl k = some f) : (k, f) ∈ tbl := by
  unfold lookupFlow at h
  cases hf : tbl.find? (fun p => p.1 == k) with
  | none => rw [hf] at h; cases h
  | some p =>
    rw [hf] at h
    have hp := List.find?_some hf
    have hm := List.mem_of_find?_eq_some hf
    have h1 : p.1 = k := by simpa using hp
    have h2 : p.2 = f := by cases h; rfl
    have hpk : p = (k, f) := by
      cases p
      simp_all
    rw [← hpk]
    exact hm

/-- C2 (amended): every flow idle-evicted by `_cleanup_old_flows` produces
a record with status `"timeout"`, end time equal to the flow's last-seen
time, and duration equal to the sweep time minus last-seen (the idle gap
measured by `time_diff` in the source); the flow's key is removed from the
table. -/
theorem evicted_flow_record (flow_timeout now : Int) (tbl : FlowTable)
    (k : String) (f : FlowState)
    (hnd : (tbl.map Prod.fst).Nodup)
    (hlk : lookupFlow tbl k = some f)
    (hexp : now - f.last_seen > flow_timeout) :
    make_timeout_record now f ∈ (cleanup_old_flows flow_timeout now tbl).2
    ∧ lookupFlow (cleanup_old_flows flow_timeout now tbl).1 k = none
    ∧ (make_timeout_record now f).status = "timeout"
    ∧ (make_timeout_record now f).end_time = f.last_seen
    ∧ (make_timeout_record now f).duration = now - f.last_seen := by
  have hmem : (k, f) ∈ tbl := mem_of_lookupFlow hlk
  have hexp' : flow_expired flow_timeout now f = true := by
    simp only [flow_expired, decide_eq_true_eq]
    exact hexp
  refine ⟨?_, ?_, rfl, rfl, rfl⟩
  · exact List.mem_map.mpr ⟨(k, f), List.mem_filter.mpr ⟨hmem, hexp'⟩, rfl⟩
  · have hnone :
        ((cleanup_old_flows flow_timeout now tbl).1.find?
          (fun p => p.1 == k)) = none := by
      apply List.find?_eq_none.mpr
      intro q hq
      simp only [cleanup_old_flows, List.mem_filter] at hq
      simp only [beq_iff_eq]
      intro hk
      have hq2 : (k, q.2) ∈ tbl := by
        have hq' : q = (k, q.2) := by
          cases q
          simp_all
        rw [← hq']
        exact hq.1
      have hqf : q.2 = f := nodup_keys_unique hnd hq2 hmem
      rw [hqf, hexp'] at hq
      simp at hq
    unfold lookupFlow
    rw [hnone]

/-- C2 counterexample: the record emitted for an evicted flow carries
`duration = sweep time - last seen` (here 400), not
`last seen - start` (here 100), refuting the claimed duration equation. -/
theorem evicted_flow_duration_counterexample :
    ((cleanup_old_flows 300 500 [("a:1-b:2-TCP", c2flow)]).2.map
      (fun r => (r.status, r.end_time, r.duration)))
      = [("timeout", 100, 400)]
    ∧ (400 : Int) ≠ c2flow.last_seen - c2flow.start_time := by
  decide

/-- Witness instantiating `evicted_flow_record` at the concrete C2 flow. -/
theorem evicted_flow_record_witness :
    make_timeout_record 500 c2flow
      ∈ (cleanup_old_flows 300 500 [("a:1-b:2-TCP", c2flow)]).2
    ∧ lookupFlow (cleanup_old_flows 300 500 [("a:1-b:2-TCP", c2flow)]).1
        "a:1-b:2-TCP" = none
    ∧ (make_timeout_record 500 c2flow).status = "timeout"
    ∧ (make_timeout_record 500 c2flow).end_time = c2flow.last_seen
    ∧ (make_timeout_record 500 c2flow).duration = 500 - c2flow.last_seen :=
  evicted_flow_record 300 500 [("a:1-b:2-TCP", c2flow)] "a:1-b:2-TCP" c2flow
    (by decide) (by decide) (by decide)

/-- A `None` left operand always raises in a Python `<` on ports. -/
theorem pyLtOpt_none_left (x : Option Nat) :
    pyLtOpt none x = .error .typeError := by
  cases x <;> rfl

/-- A packet with no source port and equal addresses drives
`_create_flow_id` into the `None` comparison, raising `TypeError`. -/
theorem create_flow_id_error_of_none_port (info : PacketInfo)
    (hsp : info.srcPort = none) (heq : info.srcIp = info.dstIp) :
    create_flow_id info = .error .typeError := by
  unfold create_flow_id
  rw [heq, pyStrLt_irrefl]
  simp [hsp, pyLtOpt_none_left]

/-- C10: a port-less packet (ICMP or OTHER transport) whose source and
destination addresses are equal makes `_create_flow_id` raise `TypeError`
from the `None < None` comparison; `_update_flow_session` swallows the
exception, so the flow table is unchanged and no record is emitted (the
cleanup call is never reached), while `_analyze_packet` still stores the
decoded `PacketRecord` in the sink. -/
theorem portless_equal_address_packet_skips_flow (flow_timeout : Int)
    (tExtract tUpdate tSweep : Int) (pkt : RawPacket) (l : IpLayer)
    (tbl : FlowTable) (sink : SinkState)
    (hip : ip_layer_of pkt = some l)
    (heq : l.src = l.dst)
    (htr : pkt.transport = .icmp ∨ pkt.transport = .other) :
    ∃ info, extract_packet_info tExtract pkt = some info
      ∧ info.srcPort = none ∧ info.dstPort = none
      ∧ create_flow_id info = .error .typeError
      ∧ update_flow_session flow_timeout info tUpdate tSweep tbl = (tbl, [])
      ∧ analyze_packet flow_timeout tExtract tUpdate tSweep pkt tbl sink
          = (tbl, { sink with packets := sink.packets ++ [info] }) := by
  have hsp : (transport_fields pkt.transport).1 = none := by
    rcases htr with h | h <;> simp [h, transport_fields]
  have hdp : (transport_fields pkt.transport).2.1 = none := by
    rcases htr with h | h <;> simp [h, transport_fields]
  have hcf : create_flow_id
      { timestamp := tExtract, packetSize := pkt.len,
        interfaceName := pkt.sniffedOn,
        srcMac := pkt.ether.map Prod.fst, dstMac := pkt.ether.map Prod.snd,
        srcIp := l.src, dstIp := l.dst, protocol := l.proto, ttl := l.ttl,
        payloadSize := l.payloadLen,
        srcPort := (transport_fields pkt.transport).1,
        dstPort := (transport_fields pkt.transport).2.1,
        protocolName := (transport_fields pkt.transport).2.2.1,
        flags := (transport_fields pkt.transport).2.2.2 }
      = .error .typeError := create_flow_id_error_of_none_port _ hsp heq
  have hext : extract_packet_info tExtract pkt = some
      { timestamp := tExtract, packetSize := pkt.len,
        interfaceName := pkt.sniffedOn,
        srcMac := pkt.ether.map Prod.fst, dstMac := pkt.ether.map Prod.snd,
        srcIp := l.src, dstIp := l.dst, protocol := l.proto, ttl := l.ttl,
        payloadSize := l.payloadLen,
        srcPort := (transport_fields pkt.transport).1,
        dstPort := (transport_fields pkt.transport).2.1,
        protocolName := (transport_fields pkt.transport).2.2.1,
        flags := (transport_fields pkt.transport).2.2.2 } := by
    simp [extract_packet_info, hip]
  have hup : update_flow_session flow_timeout
      { timestamp := tExtract, packetSize := pkt.len,
        interfaceName := pkt.sniffedOn,
        srcMac := pkt.ether.map Prod.fst, dstMac := pkt.ether.map Prod.snd,
        srcIp := l.src, dstIp := l.dst, protocol := l.proto, ttl := l.ttl,
        payloadSize := l.payloadLen,
        srcPort := (transport_fields pkt.transport).1,
        dstPort := (transport_fields pkt.transport).2.1,
        protocolName := (transport_fields pkt.transport).2.2.1,
        flags := (transport_fields pkt.transport).2.2.2 }
      tUpdate tSweep tbl = (tbl, []) := by
    simp [update_flow_session, hcf]
  refine ⟨_, hext, hsp, hdp, hcf, hup, ?_⟩
  obtain ⟨ps, fs⟩ := sink
  simp [analyze_packet, hext, hup]

/-- Each event preserves the counter identity `processed + depth =
captured`. -/
theorem qstep_identity (e : QEvent) (s : QueueState)
    (h : s.stats.packets_processed + s.queue_len = s.stats.packets_captured) :
    (qstep e s).stats.packets_processed + (qstep e s).queue_len
      = (qstep e s).stats.packets_captured := by
  cases e with
  | arrive n =>
    simp only [qstep, packet_handler]
    split_ifs <;> (try simp) <;> omega
  | consume =>
    simp only [qstep, process_step]
    split_ifs with h1 <;> (try simp) <;> omega
  | setRunning b => simpa using h

theorem qrun_append_single (evs : List QEvent) (e : QEvent) (s : QueueState) :
    qrun (evs ++ [e]) s = qstep e (qrun evs s) := by
  simp [qrun, List.foldl_append]

/-- The counter identity `processed + depth = captured` holds after any
event sequence that starts in a state satisfying it. -/
theorem qrun_identity (evs : List QEvent) (s : QueueState)
    (h : s.stats.packets_processed + s.queue_len = s.stats.packets_captured) :
    (qrun evs s).stats.packets_processed + (qrun evs s).queue_len
      = (qrun evs s).stats.packets_captured := by
  induction evs generalizing s with
  | nil => exact h
  | cons e rest ih => exact ih (qstep e s) (qstep_identity e s h)

/-- Closed form for an uninterrupted burst of `n` arrivals of size `L`
from a freshly started engine: the first `queue_maxsize` frames are
enqueued and counted as captured, the excess is counted as dropped. -/
theorem qrun_burst (n L : Nat) :
    qrun (List.replicate n (QEvent.arrive L)) scenario_d_start
      = { is_running := true, queue_len := min n queue_maxsize,
          stats := { packets_captured := min n queue_maxsize,
                     packets_processed := 0,
                     packets_dropped := n - queue_maxsize,
                     bytes_captured := L * min n queue_maxsize,
                     start_time := some 0 } } := by
  induction n with
  | zero =>
    simp [qrun, scenario_d_start, init_stats, queue_maxsize]
  | succ k ih =>
    rw [List.replicate_succ', qrun_append_single, ih]
    simp only [qstep, packet_handler, queue_maxsize] at *
    by_cases hk : k < 10000
    · have h1 : min k 10000 = k := by omega
      have h2 : min (k + 1) 10000 = k + 1 := by omega
      simp only [h1, h2]
      simp [hk, QueueState.mk.injEq, CaptureStats.mk.injEq, Nat.mul_succ]
      omega
    · have h1 : min k 10000 = 10000 := by omega
      have h2 : min (k + 1) 10000 = 10000 := by omega
      simp only [h1, h2]
      simp [hk, QueueState.mk.injEq, CaptureStats.mk.injEq]
      omega

/-- C1 counterexample: after the Scenario D burst of 10,001 frames into
the capacity-10,000 queue with no consumption, the source counts
`dropped == 1` but `captured == 10000`, because a dropped frame does not
increment `packets_captured`; the claimed identity
`dropped + processed + queueDepth == captured` fails, as does
`captured == 10001`. -/
theorem queue_identity_counterexample :
    (qrun (List.replicate 10001 (QEvent.arrive 64))
        scenario_d_start).stats.packets_dropped = 1
    ∧ (qrun (List.replicate 10001 (QEvent.arrive 64))
        scenario_d_start).stats.packets_captured = 10000
    ∧ ¬ ((qrun (List.replicate 10001 (QEvent.arrive 64))
          scenario_d_start).stats.packets_dropped
        + (qrun (List.replicate 10001 (QEvent.arrive 64))
            scenario_d_start).stats.packets_processed
        + (qrun (List.replicate 10001 (QEvent.arrive 64))
            scenario_d_start).queue_len
        = (qrun (List.replicate 10001 (QEvent.arrive 64))
            scenario_d_start).stats.packets_captured
      ∧ (qrun (List.replicate 10001 (QEvent.arrive 64))
          scenario_d_start).stats.packets_captured = 10001) := by
  rw [qrun_burst]
  decide

/-- C1 (amended): dropped frames are excluded from `captured`, so the
quiescent-snapshot identity maintained by the code is
`processed + queueDepth == captured` (for every event interleaving from
the initial state), and after the Scenario D burst of 10,001 frames with
no consumption the counters read `dropped == 1` and `captured == 10000`. -/
theorem queue_counters_amended :
    (∀ evs : List QEvent,
      (qrun evs init_queue_state).stats.packets_processed
        + (qrun evs init_queue_state).queue_len
        = (qrun evs init_queue_state).stats.packets_captured)
    ∧ (qrun (List.replicate 10001 (QEvent.arrive 64))
        scenario_d_start).stats.packets_dropped = 1
    ∧ (qrun (List.replicate 10001 (QEvent.arrive 64))
        scenario_d_start).stats.packets_captured = 10000 := by
  refine ⟨fun evs => qrun_identity evs init_queue_state rfl, ?_, ?_⟩
  · rw [qrun_burst]; decide
  · rw [qrun_burst]; decide

/-- C4 (amended): when the capture source cannot be opened,
`start_capture` still returns normally with the running flag set and both
worker threads spawned; no typed `InterfaceError` is surfaced to the
caller.  The failure only appears later, inside the capture worker, whose
`except` branch sets the running flag back to `False`. -/
theorem start_on_bad_interface_amended (ifaces : List String)
    (up : String → Option Bool) (now : Int) (iface : String) (e : Engine)
    (h : e.is_running = false) :
    (start_capture ifaces up now (some iface) e).2 = .normalReturn
    ∧ (start_capture ifaces up now (some iface) e).1.is_running = true
    ∧ (start_capture ifaces up now (some iface) e).1.capture_thread = true
    ∧ (start_capture ifaces up now (some iface) e).1.processor_thread = true
    ∧ (capture_thread_on_error (fun _ => false) iface
        (start_capture ifaces up now (some iface) e).1).is_running
        = false := by
  simp [start_capture, h, capture_thread_on_error]

/-- Witness instantiating `start_on_bad_interface_amended` on a fresh
engine and a nonexistent interface. -/
theorem start_on_bad_interface_witness :
    (start_capture ["eth0"] (fun _ => none) 0 (some "nope") init_engine).2
        = .normalReturn
    ∧ (start_capture ["eth0"] (fun _ => none) 0 (some "nope")
        init_engine).1.is_running = true
    ∧ (start_capture ["eth0"] (fun _ => none) 0 (some "nope")
        init_engine).1.capture_thread = true
    ∧ (start_capture ["eth0"] (fun _ => none) 0 (some "nope")
        init_engine).1.processor_thread = true
    ∧ (capture_thread_on_error (fun _ => false) "nope"
        (start_capture ["eth0"] (fun _ => none) 0 (some "nope")
          init_engine).1).is_running = false :=
  start_on_bad_interface_amended ["eth0"] (fun _ => none) 0 "nope"
    init_engine rfl

/-- C4 counterexample: starting on a nonexistent interface returns
normally (not a typed `InterfaceError`), leaves the engine running rather
than `Stopped`, and spawns both worker tasks, refuting each part of the
claim at this input. -/
theorem start_on_bad_interface_counterexample :
    (start_capture ["eth0"] (fun _ => none) 0 (some "nonexistent")
        init_engine).2 = .normalReturn
    ∧ (start_capture ["eth0"] (fun _ => none) 0 (some "nonexistent")
        init_engine).2 ≠ .interfaceError
    ∧ (start_capture ["eth0"] (fun _ => none) 0 (some "nonexistent")
        init_engine).1.is_running = true
    ∧ (start_capture ["eth0"] (fun _ => none) 0 (some "nonexistent")
        init_engine).1.capture_thread = true := by
  decide

/-- C5 (amended): calling `start_capture` while already running logs a
warning and returns normally as a no-op: the engine state — running flag,
threads, statistics, flow table — is unchanged, and no
`AlreadyRunningError` (or any exception) is raised. -/
theorem start_while_running_amended (ifaces : List String)
    (up : String → Option Bool) (now : Int) (iface : Option String)
    (e : Engine) (h : e.is_running = true) :
    start_capture ifaces up now iface e = (e, .normalReturn) := by
  simp [start_capture, h]

/-- Witness instantiating `start_while_running_amended` at a concrete
running engine. -/
theorem start_while_running_witness :
    start_capture [] (fun _ => none) 9 none running_engine
      = (running_engine, .normalReturn) :=
  start_while_running_amended [] (fun _ => none) 9 none running_engine rfl

/-- C5 counterexample: `start_capture` on a running engine returns the
no-error outcome (it does not fail with `AlreadyRunningError`), though it
does leave the state unchanged. -/
theorem start_while_running_counterexample :
    (start_capture [] (fun _ => none) 9 none running_engine).2
        = .normalReturn
    ∧ (start_capture [] (fun _ => none) 9 none running_engine).2
        ≠ .alreadyRunningError
    ∧ (start_capture [] (fun _ => none) 9 none running_engine).1
        = running_engine := by
  decide

/-- The first pass is the first list element satisfying "non-loopback and
reported up". -/
theorem first_up_eq_find (up : String → Option Bool) :
    ∀ ifaces : List String,
      first_up_interface up ifaces
        = ifaces.find? (fun i => !is_loopback i && (up i).getD false)
  | [] => rfl
  | i :: rest => by
    by_cases hl : is_loopback i = true
    · simp [first_up_interface, List.find?_cons, hl,
        first_up_eq_find up rest]
    · have hl' : is_loopback i = false := by
        cases hh : is_loopback i
        · rfl
        · exact absurd hh hl
      cases hu : up i with
      | none =>
        simp [first_up_interface, List.find?_cons, hl', hu,
          first_up_eq_find up rest]
      | some b =>
        cases b
        · simp [first_up_interface, List.find?_cons, hl', hu,
            first_up_eq_find up rest]
        · simp [first_up_interface, List.find?_cons, hl', hu]

/-- The second pass is the first non-loopback list element. -/
theorem first_non_loopback_eq_find :
    ∀ ifaces : List String,
      first_non_loopback ifaces = ifaces.find? (fun i => !is_loopback i)
  | [] => rfl
  | i :: rest => by
    by_cases hl : is_loopback i = true
    · simp [first_non_loopback, List.find?_cons, hl,
        first_non_loopback_eq_find rest]
    · have hl' : is_loopback i = false := by
        cases hh : is_loopback i
        · rfl
        · exact absurd hh hl
      simp [first_non_loopback, List.find?_cons, hl']

/-- C6 (amended): `auto_select_interface` returns the first interface that
is up and not loopback, else the first non-loopback interface, else the
first entry of the list; and when the list is empty it does not fail but
returns the literal fallback name `"eth0"`. -/
theorem auto_select_spec (ifaces : List String)
    (up : String → Option Bool) :
    auto_select_interface ifaces up
      = (((ifaces.find? (fun i => !is_loopback i && (up i).getD false)).orElse
          (fun _ => ifaces.find? (fun i => !is_loopback i))).getD
          (ifaces.headD "eth0")) := by
  unfold auto_select_interface
  rw [first_up_eq_find, first_non_loopback_eq_find]
  cases h1 : ifaces.find? (fun i => !is_loopback i && (up i).getD false) with
  | some i => simp [Option.orElse]
  | none =>
    cases h2 : ifaces.find? (fun i => !is_loopback i) with
    | some i => simp [Option.orElse]
    | none =>
      cases ifaces with
      | nil => simp [Option.orElse]
      | cons a l => simp [Option.orElse]

/-- C6 counterexample: on an empty interface list `auto_select_interface`
does not fail with `NoInterfacesError`; it is a total function returning
the hardcoded fallback `"eth0"`, which is not an element of the list. -/
theorem auto_select_empty_counterexample :
    auto_select_interface [] (fun _ => none) = "eth0"
    ∧ "eth0" ∉ ([] : List String) := by
  exact ⟨rfl, by simp⟩

/-- C8 (amended): the snapshot returned by `get_statistics` carries
`packets_per_second` only when the engine has a recorded start time, and
then it equals `captured / elapsed` when `elapsed > 0` and `0` otherwise;
on an engine that was never started the key is absent from the returned
dictionary. -/
theorem statistics_pps_amended (now : Int) (e : Engine) :
    (get_statistics now e).packets_per_second
      = e.stats.start_time.map (fun t =>
          if ((now - t : Int) : ℚ) > 0
          then (e.stats.packets_captured : ℚ) / ((now - t : Int) : ℚ)
          else 0) := by
  cases h : e.stats.start_time <;> simp [get_statistics, h]

/-- C8 counterexample: on the freshly initialized, never-started engine
the snapshot has no `packets_per_second` key at all — in particular it is
not the claimed value `0`. -/
theorem statistics_pps_counterexample :
    (get_statistics 5 init_engine).packets_per_second = none
    ∧ (get_statistics 5 init_engine).packets_per_second ≠ some 0 := by
  exact ⟨rfl, by simp [get_statistics, init_engine, init_stats]⟩

/-- C9 (amended): `stop_capture` never reports a leaked-worker fault: it
returns normally whether or not either worker exits within the 5-second
join grace period, because the source ignores the `join(timeout=5)`
results. -/
theorem stop_never_reports_fault (b1 b2 : Bool) (e : Engine) :
    (stop_capture b1 b2 e).2 = .normalReturn := by
  unfold stop_capture
  split_ifs <;> rfl

/-- C9 counterexample: stopping a running engine whose workers both fail
to exit within the grace period still returns the ordinary-stop outcome,
not a leaked-worker fault. -/
theorem stop_timeout_counterexample :
    (stop_capture false false running_engine).2 = .normalReturn
    ∧ (stop_capture false false running_engine).2 ≠ .leakedWorkerFault := by
  decide

theorem emitted_packet_sum_nil (k : String) : emitted_packet_sum k [] = 0 :=
  rfl

theorem emitted_packet_sum_cons (k : String) (r : FlowSessionRecord)
    (l : List FlowSessionRecord) :
    emitted_packet_sum k (r :: l)
      = (if r.session_id == k then r.packet_count else 0)
        + emitted_packet_sum k l := by
  simp only [emitted_packet_sum, List.filter_cons]
  by_cases h : (r.session_id == k) = true
  · simp [h]
  · simp [h]

theorem emitted_packet_sum_append (k : String)
    (l1 l2 : List FlowSessionRecord) :
    emitted_packet_sum k (l1 ++ l2)
      = emitted_packet_sum k l1 + emitted_packet_sum k l2 := by
  simp [emitted_packet_sum, List.filter_append]

theorem active_packet_sum_cons (k : String) (p : String × FlowState)
    (tbl : FlowTable) :
    active_packet_sum k (p :: tbl)
      = (if p.1 == k then p.2.packet_count else 0)
        + active_packet_sum k tbl := by
  simp only [active_packet_sum, List.filter_cons]
  by_cases h : (p.1 == k) = true
  · simp [h]
  · simp [h]

theorem active_packet_sum_append (k : String) (l1 l2 : FlowTable) :
    active_packet_sum k (l1 ++ l2)
      = active_packet_sum k l1 + active_packet_sum k l2 := by
  simp [active_packet_sum, List.filter_append]

/-- The idle sweep conserves per-key packet counts: what it emits for a
key plus what remains active for that key is what was active before. -/
theorem cleanup_packet_sum (flow_timeout now : Int) (k : String) :
    ∀ tbl : FlowTable,
      (∀ p ∈ tbl, (p : String × FlowState).2.session_id = p.1) →
      emitted_packet_sum k (cleanup_old_flows flow_timeout now tbl).2
        + active_packet_sum k (cleanup_old_flows flow_timeout now tbl).1
        = active_packet_sum k tbl
  | [], _ => rfl
  | p :: rest, hwf => by
    have hsess : p.2.session_id = p.1 := hwf p (List.mem_cons_self p rest)
    have ih := cleanup_packet_sum flow_timeout now k rest
      (fun q hq => hwf q (List.mem_cons_of_mem p hq))
    simp only [cleanup_old_flows, List.filter_cons] at ih ⊢
    by_cases he : flow_expired flow_timeout now p.2 = true
    · simp only [he, Bool.not_true, if_true, if_false, List.map_cons,
        Bool.false_eq_true]
      rw [emitted_packet_sum_cons, active_packet_sum_cons]
      have hrec : (make_timeout_record now p.2).session_id = p.1 := hsess
      have hcnt : (make_timeout_record now p.2).packet_count
          = p.2.packet_count := rfl
      rw [hrec, hcnt]
      omega
    · have he' : flow_expired flow_timeout now p.2 = false := by
        cases hh : flow_expired flow_timeout now p.2
        · rfl
        · exact absurd hh he
      simp only [he', Bool.not_false, if_true, if_false, Bool.false_eq_true]
      rw [active_packet_sum_cons k p (List.filter _ rest),
        active_packet_sum_cons k p rest]
      omega

theorem map_keys_touch (info : PacketInfo) (now : Int) (fid : String) :
    ∀ tbl : FlowTable,
      (tbl.map (fun p =>
        if p.1 == fid then (p.1, touch_flow info now p.2) else p)).map
          Prod.fst
        = tbl.map Prod.fst
  | [] => rfl
  | p :: rest => by
    have ih := map_keys_touch info now fid rest
    have hfst : (if p.1 == fid then (p.1, touch_flow info now p.2) else p).1
        = p.1 := by
      by_cases h : (p.1 == fid) = true
      · rw [if_pos h]
      · rw [if_neg h]
    simp only [List.map_cons, hfst, ih]

theorem map_touch_not_mem (info : PacketInfo) (now : Int) (fid : String) :
    ∀ tbl : FlowTable, fid ∉ tbl.map Prod.fst →
      tbl.map (fun p =>
        if p.1 == fid then (p.1, touch_flow info now p.2) else p) = tbl
  | [], _ => rfl
  | p :: rest, hmem => by
    simp only [List.map_cons, List.mem_cons] at hmem
    push_neg at hmem
    have hb : (p.1 == fid) = false := by
      simp only [beq_eq_false_iff_ne, ne_eq]
      intro hc
      exact hmem.1 hc.symm
    simp only [List.map_cons, hb, Bool.false_eq_true, if_false]
    rw [map_touch_not_mem info now fid rest (by
      intro hc
      exact absurd hc (by simpa using hmem.2))]

theorem lookupFlow_cons_true {p : String × FlowState} {tbl : FlowTable}
    {k : String} (h : (p.1 == k) = true) :
    lookupFlow (p :: tbl) k = some p.2 := by
  simp [lookupFlow, List.find?_cons, h]

theorem lookupFlow_cons_false {p : String × FlowState} {tbl : FlowTable}
    {k : String} (h : (p.1 == k) = false) :
    lookupFlow (p :: tbl) k = lookupFlow tbl k := by
  simp [lookupFlow, List.find?_cons, h]

/-- Updating the existing flow for `fid` in place adds exactly one to the
packet total under `fid` and leaves other keys unchanged. -/
theorem active_sum_touch (info : PacketInfo) (now : Int) (fid k : String) :
    ∀ (tbl : FlowTable) (f : FlowState), (tbl.map Prod.fst).Nodup →
      lookupFlow tbl fid = some f →
      active_packet_sum k (tbl.map (fun p =>
          if p.1 == fid then (p.1, touch_flow info now p.2) else p))
        = active_packet_sum k tbl + (if fid == k then 1 else 0)
  | [], f, _, hlk => by simp [lookupFlow] at hlk
  | p :: rest, f, hnd, hlk => by
    simp only [List.map_cons, List.nodup_cons] at hnd
    by_cases hb : (p.1 == fid) = true
    · have hfid : p.1 = fid := by simpa using hb
      have hrest : rest.map (fun p =>
          if p.1 == fid then (p.1, touch_flow info now p.2) else p)
            = rest := by
        apply map_touch_not_mem
        rw [← hfid]
        exact hnd.1
      simp only [List.map_cons, hb, if_true]
      rw [hrest, active_packet_sum_cons, active_packet_sum_cons]
      have htc : (touch_flow info now p.2).packet_count
          = p.2.packet_count + 1 := rfl
      by_cases hk : (p.1 == k) = true
      · have hfk : (fid == k) = true := by
          rw [← hfid]; exact hk
        simp only [hk, if_true, hfk, htc]
        omega
      · have hk2 : (p.1 == k) = false := by
          cases hh : p.1 == k
          · rfl
          · exact absurd hh hk
        have hfk : (fid == k) = false := by
          rw [← hfid]; exact hk2
        simp only [hk2, hfk, Bool.false_eq_true, if_false]
        omega
    · have hb' : (p.1 == fid) = false := by
        cases hh : p.1 == fid
        · rfl
        · exact absurd hh hb
      rw [lookupFlow_cons_false hb'] at hlk
      have ih := active_sum_touch info now fid k rest f hnd.2 hlk
      simp only [List.map_cons, hb', Bool.false_eq_true, if_false]
      rw [active_packet_sum_cons, active_packet_sum_cons, ih]
      omega

/-- Inserting the fresh flow for `fid` (packet count 1) adds exactly one
to the packet total under `fid` and leaves other keys unchanged. -/
theorem active_sum_insert (info : PacketInfo) (now : Int) (fid k : String)
    (tbl : FlowTable) :
    active_packet_sum k (tbl ++ [(fid, new_flow fid info now)])
      = active_packet_sum k tbl + (if fid == k then 1 else 0) := by
  rw [active_packet_sum_append]
  have h1 : active_packet_sum k [(fid, new_flow fid info now)]
      = if fid == k then 1 else 0 := by
    rw [active_packet_sum_cons]
    by_cases hk : (fid == k) = true
    · simp [hk, new_flow, emitted_packet_sum_nil]
      rfl
    · have hk' : (fid == k) = false := by
        cases hh : fid == k
        · rfl
        · exact absurd hh hk
      simp [hk']
      rfl
  rw [h1]

theorem wf_cleanup (flow_timeout now : Int) (tbl : FlowTable)
    (h : flow_table_wf tbl) :
    flow_table_wf (cleanup_old_flows flow_timeout now tbl).1 := by
  constructor
  · exact h.1.sublist ((List.filter_sublist _).map _)
  · intro p hp
    exact h.2 p (List.mem_of_mem_filter hp)

theorem wf_touch (info : PacketInfo) (now : Int) (fid : String)
    (tbl : FlowTable) (h : flow_table_wf tbl) :
    flow_table_wf (tbl.map (fun p =>
      if p.1 == fid then (p.1, touch_flow info now p.2) else p)) := by
  constructor
  · rw [map_keys_touch]
    exact h.1
  · intro p hp
    rcases List.mem_map.mp hp with ⟨q, hq, hpq⟩
    by_cases hb : (q.1 == fid) = true
    · rw [if_pos hb] at hpq
      rw [← hpq]
      exact h.2 q hq
    · rw [if_neg hb] at hpq
      rw [← hpq]
      exact h.2 q hq

theorem find?_eq_none_of_lookupFlow {tbl : FlowTable} {k : String}
    (h : lookupFlow tbl k = none) :
    tbl.find? (fun p => p.1 == k) = none := by
  unfold lookupFlow at h
  cases hf : tbl.find? (fun p => p.1 == k) with
  | none => rfl
  | some p => rw [hf] at h; cases h

theorem wf_insert (info : PacketInfo) (now : Int) (fid : String)
    (tbl : FlowTable) (h : flow_table_wf tbl)
    (hnone : lookupFlow tbl fid = none) :
    flow_table_wf (tbl ++ [(fid, new_flow fid info now)]) := by
  have hfind := find?_eq_none_of_lookupFlow hnone
  have hnotin : ∀ p ∈ tbl, ((p : String × FlowState).1 == fid) = false :=
    fun p hp => by
      have := List.find?_eq_none.mp hfind p hp
      cases hh : p.1 == fid
      · rfl
      · exact absurd hh this
  constructor
  · rw [List.map_append]
    apply List.Nodup.append h.1 (by simp)
    intro x hx hx2
    simp only [List.map_cons, List.map_nil, List.mem_singleton] at hx2
    rcases List.mem_map.mp hx with ⟨p, hp, hpx⟩
    have := hnotin p hp
    rw [hpx, hx2] at this
    simp at this
  · intro p hp
    rcases List.mem_append.mp hp with h1 | h1
    · exact h.2 p h1
    · simp only [List.mem_singleton] at h1
      rw [h1]
      rfl

theorem some_beq_some (a b : String) :
    ((some a == some b) : Bool) = (a == b) := rfl

theorem none_beq_some (b : String) :
    ((none == some b) : Bool) = false := rfl

theorem update_wf (flow_timeout : Int) (info : PacketInfo)
    (now nowSweep : Int) (tbl : FlowTable) (h : flow_table_wf tbl) :
    flow_table_wf
      (update_flow_session flow_timeout info now nowSweep tbl).1 := by
  cases hcf : create_flow_id info with
  | error e => simpa [update_flow_session, hcf] using h
  | ok fid =>
    cases hlk : lookupFlow tbl fid with
    | some f =>
      simp only [update_flow_session, hcf, hlk]
      exact wf_cleanup _ _ _ (wf_touch info now fid tbl h)
    | none =>
      simp only [update_flow_session, hcf, hlk]
      exact wf_cleanup _ _ _ (wf_insert info now fid tbl h hlk)

/-- One `Ingest` call conserves per-key packet counts, adding one for the
key it successfully ingests to. -/
theorem update_packet_sum (flow_timeout : Int) (info : PacketInfo)
    (now nowSweep : Int) (tbl : FlowTable) (k : String)
    (h : flow_table_wf tbl) :
    emitted_packet_sum k
        (update_flow_session flow_timeout info now nowSweep tbl).2
      + active_packet_sum k
          (update_flow_session flow_timeout info now nowSweep tbl).1
      = active_packet_sum k tbl
        + (if ok_key info == some k then 1 else 0) := by
  cases hcf : create_flow_id info with
  | error e =>
    have hok : ok_key info = none := by simp [ok_key, hcf]
    simp [update_flow_session, hcf, hok, none_beq_some,
      emitted_packet_sum_nil]
  | ok fid =>
    have hok : ok_key info = some fid := by simp [ok_key, hcf]
    rw [hok, some_beq_some]
    cases hlk : lookupFlow tbl fid with
    | some f =>
      simp only [update_flow_session, hcf, hlk]
      rw [cleanup_packet_sum flow_timeout nowSweep k _
        (wf_touch info now fid tbl h).2]
      exact active_sum_touch info now fid k tbl f h.1 hlk
    | none =>
      simp only [update_flow_session, hcf, hlk]
      rw [cleanup_packet_sum flow_timeout nowSweep k _
        (wf_insert info now fid tbl h hlk).2]
      exact active_sum_insert info now fid k tbl

/-- The session ids of the records emitted by one sweep are exactly the
keys of the evicted table entries. -/
theorem cleanup_emitted_keys (flow_timeout now : Int) (tbl : FlowTable)
    (h : ∀ p ∈ tbl, (p : String × FlowState).2.session_id = p.1) :
    (cleanup_old_flows flow_timeout now tbl).2.map (fun r => r.session_id)
      = (tbl.filter (fun p => flow_expired flow_timeout now p.2)).map
          Prod.fst := by
  simp only [cleanup_old_flows, List.map_map]
  apply List.map_congr_left
  intro p hp
  exact h p (List.mem_of_mem_filter hp)

/-- Within one sweep, at most one record per key is emitted. -/
theorem cleanup_emitted_nodup (flow_timeout now : Int) (tbl : FlowTable)
    (h : flow_table_wf tbl) :
    ((cleanup_old_flows flow_timeout now tbl).2.map
      (fun r => r.session_id)).Nodup := by
  rw [cleanup_emitted_keys flow_timeout now tbl h.2]
  exact h.1.sublist ((List.filter_sublist _).map _)

/-- Every record emitted by a sweep leaves the table with no entry under
its session id. -/
theorem cleanup_removes (flow_timeout now : Int) (tbl : FlowTable)
    (h : flow_table_wf tbl) (r : FlowSessionRecord)
    (hr : r ∈ (cleanup_old_flows flow_timeout now tbl).2) :
    lookupFlow (cleanup_old_flows flow_timeout now tbl).1 r.session_id
      = none := by
  rcases List.mem_map.mp hr with ⟨p, hp, hmk⟩
  have hpf := List.mem_filter.mp hp
  have hsid : r.session_id = p.1 := by
    rw [← hmk]
    exact h.2 p hpf.1
  have hnone : ((cleanup_old_flows flow_timeout now tbl).1.find?
      (fun q => q.1 == r.session_id)) = none := by
    apply List.find?_eq_none.mpr
    intro q hq
    have hqf := List.mem_filter.mp hq
    intro hbeq
    have hqk : q.1 = r.session_id := by simpa using hbeq
    have hq2 : (q.1, q.2) ∈ tbl := hqf.1
    rw [hqk, hsid] at hq2
    have hp2 : (p.1, p.2) ∈ tbl := hpf.1
    have hqp : q.2 = p.2 := nodup_keys_unique h.1 hq2 hp2
    have hkept := hqf.2
    rw [hqp, hpf.2] at hkept
    simp at hkept
  unfold lookupFlow
  rw [hnone]

theorem update_emitted_nodup (flow_timeout : Int) (info : PacketInfo)
    (now nowSweep : Int) (tbl : FlowTable) (h : flow_table_wf tbl) :
    ((update_flow_session flow_timeout info now nowSweep tbl).2.map
      (fun r => r.session_id)).Nodup := by
  cases hcf : create_flow_id info with
  | error e => simp [update_flow_session, hcf]
  | ok fid =>
    cases hlk : lookupFlow tbl fid with
    | some f =>
      simp only [update_flow_session, hcf, hlk]
      exact cleanup_emitted_nodup _ _ _ (wf_touch info now fid tbl h)
    | none =>
      simp only [update_flow_session, hcf, hlk]
      exact cleanup_emitted_nodup _ _ _ (wf_insert info now fid tbl h hlk)

theorem update_removes (flow_timeout : Int) (info : PacketInfo)
    (now nowSweep : Int) (tbl : FlowTable) (h : flow_table_wf tbl)
    (r : FlowSessionRecord)
    (hr : r ∈ (update_flow_session flow_timeout info now nowSweep tbl).2) :
    lookupFlow (update_flow_session flow_timeout info now nowSweep tbl).1
      r.session_id = none := by
  cases hcf : create_flow_id info with
  | error e => simp [update_flow_session, hcf] at hr
  | ok fid =>
    cases hlk : lookupFlow tbl fid with
    | some f =>
      simp only [update_flow_session, hcf, hlk] at hr ⊢
      exact cleanup_removes _ _ _ (wf_touch info now fid tbl h) r hr
    | none =>
      simp only [update_flow_session, hcf, hlk] at hr ⊢
      exact cleanup_removes _ _ _ (wf_insert info now fid tbl h hlk) r hr

theorem wf_empty : flow_table_wf [] := by
  constructor
  · simp
  · intro p hp
    cases hp

theorem frun_wf (flow_timeout : Int) :
    ∀ (evs : List IngestEvent) (tbl : FlowTable), flow_table_wf tbl →
      flow_table_wf (frun flow_timeout evs tbl).1
  | [], _, h => h
  | ev :: evs, tbl, h =>
    frun_wf flow_timeout evs (fstep flow_timeout ev tbl).1
      (update_wf flow_timeout ev.info ev.now ev.nowSweep tbl h)

theorem frun_packet_sum (flow_timeout : Int) (k : String) :
    ∀ (evs : List IngestEvent) (tbl : FlowTable), flow_table_wf tbl →
      emitted_packet_sum k (frun flow_timeout evs tbl).2
        + active_packet_sum k (frun flow_timeout evs tbl).1
        = active_packet_sum k tbl + ingest_count k evs
  | [], tbl, _ => by
    simp [frun, ingest_count, emitted_packet_sum_nil]
  | ev :: evs, tbl, h => by
    have h1 := update_packet_sum flow_timeout ev.info ev.now ev.nowSweep
      tbl k h
    have h2 := frun_packet_sum flow_timeout k evs
      (fstep flow_timeout ev tbl).1
      (update_wf flow_timeout ev.info ev.now ev.nowSweep tbl h)
    simp only [frun, emitted_packet_sum_append, ingest_count,
      List.countP_cons] at h2 ⊢
    simp only [fstep] at h1 h2 ⊢
    cases hb : (ok_key ev.info == some k) <;>
      simp only [hb, Bool.false_eq_true, if_false, if_true] at h1 ⊢ <;>
      omega

/-- C7: over any trace of `Ingest` calls from the empty table,
(i) conservation — for every key `k`, the total `packet_count` emitted on
records for `k` plus the `packet_count` still active under `k` equals the
number of `Ingest` calls that successfully keyed to `k`, so each emitted
record's `packet_count` counts exactly the ingests absorbed by the flow
lifetime it snapshots; (ii) within the sweep of any single further
`Ingest` step, emitted session ids are pairwise distinct — at most one
record per key per sweep; (iii) every emitted record leaves the table
with no entry under its key, so another record for that key can only
follow a fresh flow creation, i.e. a new idle period. -/
theorem single_emission_per_flow (flow_timeout : Int)
    (evs : List IngestEvent) (k : String) (ev : IngestEvent) :
    (emitted_packet_sum k (frun flow_timeout evs []).2
      + active_packet_sum k (frun flow_timeout evs []).1
      = ingest_count k evs)
    ∧ ((fstep flow_timeout ev (frun flow_timeout evs []).1).2.map
        (fun r => r.session_id)).Nodup
    ∧ ∀ r ∈ (fstep flow_timeout ev (frun flow_timeout evs []).1).2,
        lookupFlow (fstep flow_timeout ev (frun flow_timeout evs []).1).1
          r.session_id = none := by
  have hwf : flow_table_wf (frun flow_timeout evs []).1 :=
    frun_wf flow_timeout evs [] wf_empty
  refine ⟨?_, ?_, ?_⟩
  · have hsum := frun_packet_sum flow_timeout k evs [] wf_empty
    simpa [active_packet_sum] using hsum
  · exact update_emitted_nodup flow_timeout ev.info ev.now ev.nowSweep _ hwf
  · intro r hr
    exact update_removes flow_timeout ev.info ev.now ev.nowSweep _ hwf r hr

/-- Witness instantiating `single_emission_per_flow` on a concrete
two-ingest trace whose second sweep evicts the first flow. -/
theorem single_emission_witness :
    lookupFlow (fstep 300 c7ev2 (frun 300 [c7ev1] []).1).1
      c7rec.session_id = none :=
  (single_emission_per_flow 300 [c7ev1] "a:1-b:2-TCP" c7ev2).2.2 c7rec
    (by decide)

/-- Witness instantiating `portless_equal_address_packet_skips_flow` at
the concrete ICMP packet with equal addresses. -/
theorem portless_equal_address_witness :
    ∃ info, extract_packet_info 7 c10pkt = some info
      ∧ info.srcPort = none ∧ info.dstPort = none
      ∧ create_flow_id info = .error .typeError
      ∧ update_flow_session 300 info 8 9 [] = ([], [])
      ∧ analyze_packet 300 7 8 9 c10pkt [] { packets := [], flows := [] }
          = ([], { packets := [info], flows := [] }) :=
  portless_equal_address_packet_skips_flow 300 7 8 9 c10pkt
    { src := "a", dst := "a", proto := 1, ttl := 64, payloadLen := 10 }
    [] { packets := [], flows := [] } rfl rfl (Or.inl rfl)

end PacketEngine
